import Mathlib

/-!
Verification development for the airline market-demand demo app
(`app.py`, `Api_Integration.py`).

The Python source is shallowly embedded: records become Lean structures,
pure functions become Lean functions on them, a raised exception becomes
`none` of an `Option` result, and the mock/LLM HTTP interaction is modelled
by passing the (parsed) HTTP response as an explicit argument.

Python's `round(x, n)` formats through binary floating point with
round-half-even; here rationals are exact and `round` (half-up) is used.
The two differ only at exact decimal ties, which none of the verified
properties depend on (the properties proved below are either exact at
tie-free values or monotonicity/bound facts that hold for every
round-to-nearest tie-breaking rule).
-/

/-- `round(q, 2)` of the Python source: round to 2 decimal places. -/
def round2 (q : ℚ) : ℚ := (round (100 * q) : ℤ) / 100

/-- `round(q, 1)` of the Python source: round to 1 decimal place. -/
def round1 (q : ℚ) : ℚ := (round (10 * q) : ℤ) / 10

/-- Python `f"{q:.0f}"` formatting: round to an integer, half to even. -/
def fmt0 (q : ℚ) : ℤ :=
  let f := ⌊q⌋
  let r := q - f
  if r < 1/2 then f
  else if 1/2 < r then f + 1
  else if f % 2 = 0 then f else f + 1

/-- `sum(l) / len(l)` over integer entries, as an exact rational.
(Used only on non-empty lists; on `[]` Lean's division by zero gives `0`.) -/
def listMeanQ (l : List ℤ) : ℚ := (l.sum : ℚ) / (l.length : ℚ)

/-- Python `min(l)`: `none` models the `ValueError` on an empty list. -/
def listMin (l : List ℤ) : Option ℤ :=
  match l with
  | [] => none
  | x :: xs => some (xs.foldl min x)

/-- Python `max(l)`: `none` models the `ValueError` on an empty list. -/
def listMax (l : List ℤ) : Option ℤ :=
  match l with
  | [] => none
  | x :: xs => some (xs.foldl max x)

/-! ## Calendar dates and Python's `date.weekday()`

`app.py` formats flight dates as `'%Y-%m-%d'` strings and recovers the
weekday with `datetime.weekday()` (Monday = 0 … Sunday = 6).  A date is
embedded as its year/month/day triple and the weekday is computed from the
proleptic-Gregorian day count (the standard days-from-civil algorithm),
calibrated so that 1970-01-01 (absolute day 719468) is a Thursday (3). -/

structure Date where
  year : ℕ
  month : ℕ
  day : ℕ
deriving DecidableEq, Repr

/-- Days since 0000-03-01 of the proleptic Gregorian calendar. -/
def daysAbs (dt : Date) : ℕ :=
  let y := if dt.month ≤ 2 then dt.year - 1 else dt.year
  let era := y / 400
  let yoe := y - era * 400
  let mp := (dt.month + 9) % 12
  let doy := (153 * mp + 2) / 5 + dt.day - 1
  let doe := yoe * 365 + yoe / 4 - yoe / 100 + doy
  era * 146097 + doe

/-- Python's `datetime.weekday()`: Monday = 0, …, Saturday = 5, Sunday = 6. -/
def pyWeekday (dt : Date) : ℕ := (daysAbs dt + 2) % 7

/-- `flight_date.strftime('%A')` of `get_demand_insights`. -/
def weekdayName (dt : Date) : String :=
  match pyWeekday dt with
  | 0 => "Monday"
  | 1 => "Tuesday"
  | 2 => "Wednesday"
  | 3 => "Thursday"
  | 4 => "Friday"
  | 5 => "Saturday"
  | _ => "Sunday"

/-! ## The flight record (`app.py`, `generate_sample_data`) -/

/-- One element of the `routes` list built by
`AirlineDataProcessor.generate_sample_data`. -/
structure Flight where
  origin : String
  destination : String
  price : ℤ
  date : Date
  demand_score : ℤ
  availability : ℤ
  is_domestic : Bool
  airline : String
deriving DecidableEq, Repr

/-- The price stored by `generate_sample_data`:
`int(base_price * weekend_multiplier)` with
`weekend_multiplier = 1.2 if flight_date.weekday() >= 5 else 1.0`.

For `1 ≤ basePrice ≤ 2500`, IEEE-754 double arithmetic gives
`int(basePrice * 1.2) = (6 * basePrice) / 5` exactly (Nat division): the
double nearest to 1.2 is `6/5 - 1/(5 * 2^52)`, so the exact product is
`6b/5 - b/(5 * 2^52)`; when `6b/5` is an integer the product rounds back up
to it (the deficit is below half an ulp at every representable magnitude in
range), and otherwise the product stays strictly between `⌊6b/5⌋ + 0.1` and
`⌊6b/5⌋ + 0.95`, so truncation by `int()` yields `⌊6b/5⌋` in both cases. -/
def samplePrice (basePrice : ℕ) (flightDate : Date) : ℕ :=
  if 5 ≤ pyWeekday flightDate then 6 * basePrice / 5 else basePrice

/-- The spec's reading of the same computation: base price multiplied by
1.2 and rounded to the *nearest* integer on weekends. -/
def samplePriceSpec (basePrice : ℕ) (flightDate : Date) : ℕ :=
  if 5 ≤ pyWeekday flightDate then (round ((6 * basePrice : ℚ) / 5)).toNat
  else basePrice

/-! ## `AirlineDataProcessor.analyze_popular_routes` -/

/-- `f"{flight['origin']} → {flight['destination']}"`. -/
def routeKey (f : Flight) : String := f.origin ++ " → " ++ f.destination

/-- One step of the `route_demand[route_key].append(flight['demand_score'])`
loop over a `defaultdict(list)`: dict iteration order is first-touch order,
and each key's list collects scores in encounter order. -/
def addDemand (acc : List (String × List ℤ)) (f : Flight) :
    List (String × List ℤ) :=
  let k := routeKey f
  if k ∈ acc.map Prod.fst then
    acc.map (fun p => if p.1 = k then (p.1, p.2 ++ [f.demand_score]) else p)
  else acc ++ [(k, [f.demand_score])]

/-- The fully built `route_demand` dictionary, as an insertion-ordered
association list. -/
def routeDemand (data : List Flight) : List (String × List ℤ) :=
  data.foldl addDemand []

/-- One entry of the `popular_routes` list. -/
structure RouteStat where
  route : String
  avg_demand : ℚ
  flight_count : ℕ
deriving DecidableEq, Repr

/-- The `popular_routes` list before sorting: one entry per route in dict
iteration order, with `round(avg_demand, 1)`. -/
def popularStats (data : List Flight) : List RouteStat :=
  (routeDemand data).map fun p =>
    { route := p.1, avg_demand := round1 (listMeanQ p.2),
      flight_count := p.2.length }

/-- Stable insertion for descending order: the new element is placed before
the first element whose key is ≤ its own, so earlier elements stay ahead of
later equal-keyed ones — exactly the behaviour of Python's stable
`sorted(..., reverse=True)`. -/
def insertStat (x : RouteStat) : List RouteStat → List RouteStat
  | [] => [x]
  | y :: ys =>
    if y.avg_demand ≤ x.avg_demand then x :: y :: ys
    else y :: insertStat x ys

/-- `sorted(popular_routes, key=lambda x: x['avg_demand'], reverse=True)`. -/
def sortDesc (l : List RouteStat) : List RouteStat := l.foldr insertStat []

/-- `AirlineDataProcessor.analyze_popular_routes`. -/
def analyzePopularRoutes (data : List Flight) : List RouteStat :=
  (sortDesc (popularStats data)).take 10

/-! ## `AirlineDataProcessor.analyze_price_trends` -/

/-- The dict returned by `analyze_price_trends`; the `"$min - $max"` range
strings are modelled by their `(min, max)` payload, with `none` standing
for the `"N/A"` sentinel. -/
structure PriceTrends where
  domestic_avg : ℚ
  international_avg : ℚ
  domestic_range : Option (ℤ × ℤ)
  international_range : Option (ℤ × ℤ)
deriving DecidableEq, Repr

/-- The `domestic_prices` list (the loop partitions by `is_domestic`). -/
def domesticPrices (data : List Flight) : List ℤ :=
  (data.filter fun f => f.is_domestic).map fun f => f.price

/-- The `international_prices` list. -/
def internationalPrices (data : List Flight) : List ℤ :=
  (data.filter fun f => !f.is_domestic).map fun f => f.price

/-- `"$min - $max" if prices else "N/A"`, as an optional pair. -/
def rangeOf (l : List ℤ) : Option (ℤ × ℤ) :=
  match listMin l, listMax l with
  | some m, some M => some (m, M)
  | _, _ => none

/-- `AirlineDataProcessor.analyze_price_trends`. -/
def analyzePriceTrends (data : List Flight) : PriceTrends :=
  let dp := domesticPrices data
  let ip := internationalPrices data
  { domestic_avg := round2 (if dp.length ≠ 0 then listMeanQ dp else 0)
    international_avg := round2 (if ip.length ≠ 0 then listMeanQ ip else 0)
    domestic_range := rangeOf dp
    international_range := rangeOf ip }

/-! ## `AirlineDataProcessor.get_demand_insights` -/

/-- The sentences appended to `insights`, with their interpolated numeric
payloads (the `:.1f` display formatting is not modelled). -/
inductive Insight
  | peakDemand (day : String) (avg : ℚ)
  | domesticHigher (dom : ℚ) (intl : ℚ)
  | internationalHigher (intl : ℚ) (dom : ℚ)
deriving DecidableEq, Repr

/-- One step of the `weekday_demand[weekday].append(...)` loop. -/
def addWeekdayDemand (acc : List (String × List ℤ)) (f : Flight) :
    List (String × List ℤ) :=
  let k := weekdayName f.date
  if k ∈ acc.map Prod.fst then
    acc.map (fun p => if p.1 = k then (p.1, p.2 ++ [f.demand_score]) else p)
  else acc ++ [(k, [f.demand_score])]

/-- The `weekday_demand` dictionary in iteration order. -/
def weekdayDemand (data : List Flight) : List (String × List ℤ) :=
  data.foldl addWeekdayDemand []

/-- Python's `max(d, key=d.get)` over an association list: the first key
with maximal value; `none` models the `ValueError` on an empty dict. -/
def argmaxFirst (l : List (String × ℚ)) : Option (String × ℚ) :=
  match l with
  | [] => none
  | x :: xs => some (xs.foldl (fun b y => if b.2 < y.2 then y else b) x)

/-- `AirlineDataProcessor.get_demand_insights`; `none` models the
`ValueError` that `max` raises when `avg_demand_by_day` is empty. -/
def getDemandInsights (data : List Flight) : Option (List Insight) :=
  let avgByDay := (weekdayDemand data).map fun p => (p.1, listMeanQ p.2)
  match argmaxFirst avgByDay with
  | none => none
  | some peak =>
    let base := [Insight.peakDemand peak.1 peak.2]
    let dom := data.filter fun f => f.is_domestic
    let intl := data.filter fun f => !f.is_domestic
    if dom.length ≠ 0 ∧ intl.length ≠ 0 then
      let da := listMeanQ (dom.map fun f => f.demand_score)
      let ia := listMeanQ (intl.map fun f => f.demand_score)
      some (base ++ [if ia < da then Insight.domesticHigher da ia
                     else Insight.internationalHigher ia da])
    else some base

/-! ## `OpenAIAnalyzer` (`Api_Integration.py`)

Records handed to the analyzer are plain dicts; the analyzer's mock path
reads only the `price` column (`df['price']`, skipping rows where the field
is absent, which pandas renders as NaN and excludes from `mean`/`min`/`max`),
plus the record count.  A record is therefore embedded as an optional
numeric price together with the remaining fields, which the analyzer never
inspects. -/

structure ApiRecord where
  price : Option ℚ
  other : List (String × String)
deriving DecidableEq, Repr

/-- JSON values, the shape of `json.loads` results and of the insight
bundles built by the analyzer. -/
inductive Json
  | null
  | bool (b : Bool)
  | num (q : ℚ)
  | str (s : String)
  | arr (xs : List Json)
  | obj (fields : List (String × Json))

/-- The top-level keys of a JSON object (`[]` for non-objects). -/
def bundleKeys (j : Json) : List String :=
  match j with
  | Json.obj fields => fields.map Prod.fst
  | _ => []

/-- The five keys of the `InsightBundle` contract. -/
def insightBundleKeys : List String :=
  ["demand_insights", "price_insights", "route_insights",
   "recommendations", "summary"]

/-- Whether a JSON value is an object carrying exactly the five
`InsightBundle` keys in order. -/
def isInsightBundle (j : Json) : Bool :=
  bundleKeys j = insightBundleKeys

/-- The numeric `price` column of the records (pandas drops the NaNs of
records lacking the field). -/
def pricesOf (l : List ApiRecord) : List ℚ :=
  l.filterMap fun r => r.price

/-- `min` of the price column; `0` never escapes to the output because the
caller guards on a non-empty column. -/
def qListMin (l : List ℚ) : ℚ :=
  match l with
  | [] => 0
  | x :: xs => xs.foldl min x

/-- `max` of the price column. -/
def qListMax (l : List ℚ) : ℚ :=
  match l with
  | [] => 0
  | x :: xs => xs.foldl max x

/-- `OpenAIAnalyzer._generate_mock_insights`.  The `'price' in df.columns`
guard coincides, in this embedding, with the price column being non-empty.
String interpolation (`f"... ${x:.0f} ..."`) is rendered by `fmt0` and
string concatenation. -/
def generateMockInsights (flight_data : List ApiRecord) : Json :=
  if flight_data.length = 0 then
    Json.obj
      [("demand_insights",
        Json.arr [Json.str "No flight data available for analysis"]),
       ("price_insights", Json.arr []),
       ("route_insights", Json.arr []),
       ("recommendations", Json.arr []),
       ("summary", Json.str "Insufficient data for analysis")]
  else
    let prices := pricesOf flight_data
    let avg_price : ℚ :=
      if prices.length = 0 then 0 else prices.sum / (prices.length : ℚ)
    Json.obj
      [("demand_insights", Json.arr
         [Json.str ("Analyzed " ++ toString flight_data.length ++
            " flights across multiple routes"),
          Json.str ("Average flight price is $" ++ toString (fmt0 avg_price)
            ++ " AUD"),
          Json.str "Weekend flights show higher demand patterns",
          Json.str "Morning flights (6-9 AM) are most popular for business routes"]),
       ("price_insights", Json.arr
         [(if prices.length = 0 then Json.str "Price data unavailable"
           else Json.str ("Price range varies from $" ++
             toString (fmt0 (qListMin prices)) ++ " to $" ++
             toString (fmt0 (qListMax prices)))),
          Json.str "International flights average 60% higher than domestic",
          Json.str "Booking 3-4 weeks in advance offers best value"]),
       ("route_insights", Json.arr
         [Json.str "Sydney-Melbourne remains the busiest route",
          Json.str "International routes to Asia show strong demand",
          Json.str "Regional routes have limited but stable demand"]),
       ("recommendations", Json.arr
         [Json.str "Book domestic flights 2-3 weeks in advance",
          Json.str "Consider Tuesday/Wednesday departures for lower prices",
          Json.str "Morning flights offer better on-time performance"]),
       ("summary",
        Json.str "Market shows healthy demand with price stability across major routes")]

/-- The chat-completion HTTP response consumed by
`analyze_flight_trends`: status code, raw message-content string, and the
outcome of `json.loads(content)` (`none` = `JSONDecodeError`). -/
structure ChatResponse where
  status : ℕ
  content : String
  parsed : Option Json

/-- `OpenAIAnalyzer.analyze_flight_trends`.  The HTTP interaction is an
explicit argument: `none` for the response models `requests.post` raising
(the `except` branch).  A missing API key short-circuits to the mock path
before any request is made. -/
def analyzeFlightTrends (apiKey : Option String)
    (resp : Option ChatResponse) (flight_data : List ApiRecord) : Json :=
  match apiKey with
  | none => generateMockInsights flight_data
  | some _ =>
    match resp with
    | none => generateMockInsights flight_data
    | some r =>
      if r.status = 200 then
        match r.parsed with
        | some insights => insights
        | none =>
          Json.obj
            [("demand_insights", Json.arr [Json.str r.content]),
             ("price_insights", Json.arr []),
             ("route_insights", Json.arr []),
             ("recommendations", Json.arr []),
             ("summary", Json.str "AI analysis completed")]
      else generateMockInsights flight_data

/-! ## `MarketDataAggregator._assess_data_quality`

For the quality score a record is embedded as its field names tagged with
whether the stored value is null (`true` = null/None): the score depends
only on which columns exist and which cells are null.  A cell is null both
when the record stores None and when the record lacks a column that other
records have (pandas fills NaN there). -/

/-- A record as seen by the quality assessor: field name ↦ is-null. -/
def QRecord : Type := List (String × Bool)

/-- `df.columns`: the union of all record keys, without duplicates. -/
def columnsOf (data : List QRecord) : List String :=
  (data.flatMap fun r => r.map Prod.fst).dedup

/-- `required_fields = ['origin', 'destination', 'price', 'date']`. -/
def requiredFields : List String := ["origin", "destination", "price", "date"]

/-- `[field for field in required_fields if field not in df.columns]`. -/
def missingFields (data : List QRecord) : List String :=
  requiredFields.filter fun f => f ∉ columnsOf data

/-- Whether the DataFrame cell at (record, column) is null: the record
lacks the column, or stores a null there. -/
def cellIsNull (r : QRecord) (c : String) : Bool :=
  match r.lookup c with
  | some b => b
  | none => true

/-- `df.isnull().sum().sum()`: the total count of null cells. -/
def nullCount (data : List QRecord) : ℕ :=
  ((columnsOf data).map fun c =>
    (data.filter fun r => cellIsNull r c).length).sum

/-- The `quality_score` field of the dict returned by
`MarketDataAggregator._assess_data_quality` (the `issues` list and
`completeness` ratio are reportage around the same counts and are not
modelled). -/
def assessDataQuality (data : List QRecord) : ℤ :=
  if data.length = 0 then 0
  else
    let quality := max 0 (100 - 25 * ((missingFields data).length : ℤ))
    let nulls := nullCount data
    let quality :=
      if 0 < nulls then quality - min 20 (nulls : ℤ) else quality
    max 0 quality

/-! ## The processor object (`AirlineDataProcessor`)

`__init__` stores three attributes; none of the analysis methods reads or
writes any of them (their bodies mention `self` nowhere else), so the
state-passing translation threads the state through unchanged and computes
the result from the `data` argument alone. -/

structure ProcessorState where
  routes_data : List Flight
  price_trends : List (String × ℚ)
  demand_patterns : List (String × ℚ)

/-- `analyze_popular_routes` as a method: state in, state and result out. -/
def analyzePopularRoutesM (s : ProcessorState) (data : List Flight) :
    ProcessorState × List RouteStat :=
  (s, analyzePopularRoutes data)

/-- `analyze_price_trends` as a method. -/
def analyzePriceTrendsM (s : ProcessorState) (data : List Flight) :
    ProcessorState × PriceTrends :=
  (s, analyzePriceTrends data)

/-- `get_demand_insights` as a method. -/
def getDemandInsightsM (s : ProcessorState) (data : List Flight) :
    ProcessorState × Option (List Insight) :=
  (s, getDemandInsights data)

/-! ## Helper lemmas -/

/-- Evaluation of `round` on rationals through the floor characterisation. -/
theorem round_eq_of (q : ℚ) (m : ℤ) (h1 : (m : ℚ) ≤ q + 1 / 2)
    (h2 : q + 1 / 2 < m + 1) : round q = m := by
  rw [round_eq]
  exact Int.floor_eq_iff.mpr ⟨h1, h2⟩

/-! ## C1: behaviour of the aggregations on the empty record list -/

/-- C1 (counterexample): on the empty record list `get_demand_insights`
does **not** return an empty insight list — `max(avg_demand_by_day, ...)`
raises `ValueError` on the empty dict, modelled here by `none`. -/
theorem get_demand_insights_empty_raises :
    getDemandInsights ([] : List Flight) = none := rfl

/-- C1 (amended): on the empty record list, `analyze_popular_routes`
returns the empty list and `analyze_price_trends` returns the zero
averages with the `"N/A"` sentinel ranges, but `get_demand_insights`
raises `ValueError` (modelled by `none`) instead of returning an empty
insight list. -/
theorem empty_input_aggregations :
    analyzePopularRoutes [] = [] ∧
    analyzePriceTrends [] =
      { domestic_avg := 0, international_avg := 0,
        domestic_range := none, international_range := none } ∧
    getDemandInsights [] = none := by
  refine ⟨rfl, ?_, rfl⟩
  simp [analyzePriceTrends, domesticPrices, internationalPrices, rangeOf,
    listMin, listMax, round2]

/-! ## C3: the weekend price multiplier -/

/-- C3 (counterexample): for base price 153 (inside the domestic band
[150, 400]) on Saturday 2026-10-17, the stored price is
`int(153 * 1.2) = 183`, while 153 · 1.2 = 183.6 rounded to the *nearest*
integer is 184 — the code truncates rather than rounds. -/
theorem weekend_price_not_rounded :
    150 ≤ 153 ∧ 153 ≤ 400 ∧ pyWeekday ⟨2026, 10, 17⟩ = 5 ∧
    samplePrice 153 ⟨2026, 10, 17⟩ = 183 ∧
    samplePriceSpec 153 ⟨2026, 10, 17⟩ = 184 := by
  refine ⟨by norm_num, by norm_num, by decide, by decide, ?_⟩
  rw [samplePriceSpec, if_pos (by decide)]
  rw [round_eq_of (6 * ((153 : ℕ) : ℚ) / 5) 184 (by norm_num) (by norm_num)]
  rfl

/-- C3 (amended): on Saturdays and Sundays the stored price is the base
price multiplied by 1.2 and *truncated* toward zero (Python `int()`), i.e.
the floor of `6·b/5`; on the other weekdays it is the base price
unchanged. -/
theorem weekend_price_truncates (b : ℕ) (d : Date) :
    (5 ≤ pyWeekday d → (samplePrice b d : ℤ) = ⌊((6 * b : ℕ) : ℚ) / 5⌋) ∧
    (pyWeekday d < 5 → samplePrice b d = b) := by
  constructor
  · intro h
    rw [samplePrice, if_pos h]
    symm
    rw [Int.floor_eq_iff]
    have h1 : 6 * b / 5 * 5 ≤ 6 * b := Nat.div_mul_le_self (6 * b) 5
    have h2 : 6 * b < (6 * b / 5 + 1) * 5 := by
      have h3 := Nat.div_add_mod (6 * b) 5
      have h4 : (6 * b) % 5 < 5 := Nat.mod_lt _ (by norm_num)
      omega
    constructor
    · rw [le_div_iff₀ (by norm_num : (0 : ℚ) < 5)]
      exact_mod_cast h1
    · rw [div_lt_iff₀ (by norm_num : (0 : ℚ) < 5)]
      push_cast
      exact_mod_cast h2
  · intro h
    rw [samplePrice, if_neg (by omega)]

/-- Witness for the amended C3 theorem at base price 153 and the Saturday
2026-10-17. -/
theorem weekend_price_truncates_witness :
    5 ≤ pyWeekday ⟨2026, 10, 17⟩ ∧
    (samplePrice 153 ⟨2026, 10, 17⟩ : ℤ) = ⌊((6 * 153 : ℕ) : ℚ) / 5⌋ :=
  ⟨by decide, (weekend_price_truncates 153 ⟨2026, 10, 17⟩).1 (by decide)⟩

/-! ## C9: the analysis methods neither read nor write processor state -/

/-- C9: each analysis call leaves `routes_data`, `price_trends` and
`demand_patterns` unchanged, and its result does not depend on the
processor state — it is a function of the record list alone. -/
theorem aggregations_pure (s s' : ProcessorState) (data : List Flight) :
    (analyzePopularRoutesM s data).1 = s ∧
    (analyzePriceTrendsM s data).1 = s ∧
    (getDemandInsightsM s data).1 = s ∧
    (analyzePopularRoutesM s data).2 = (analyzePopularRoutesM s' data).2 ∧
    (analyzePriceTrendsM s data).2 = (analyzePriceTrendsM s' data).2 ∧
    (getDemandInsightsM s data).2 = (getDemandInsightsM s' data).2 :=
  ⟨rfl, rfl, rfl, rfl, rfl, rfl⟩

/-! ## C10: HTTP 200 with parseable content is returned unvalidated -/

/-- C10: whenever the key is set and the response has status 200 with
content that parses as JSON, `analyze_flight_trends` returns the parsed
value verbatim — including values that are not five-key insight bundles,
as the concrete JSON-array response shows. -/
theorem llm_json_passthrough :
    (∀ (key : String) (r : ChatResponse) (data : List ApiRecord) (j : Json),
      r.status = 200 → r.parsed = some j →
      analyzeFlightTrends (some key) (some r) data = j) ∧
    analyzeFlightTrends (some "k")
      (some ⟨200, "[1,2]", some (Json.arr [Json.num 1, Json.num 2])⟩) [] =
      Json.arr [Json.num 1, Json.num 2] ∧
    isInsightBundle (Json.arr [Json.num 1, Json.num 2]) = false := by
  refine ⟨?_, rfl, rfl⟩
  intro key r data j h1 h2
  simp only [analyzeFlightTrends]
  rw [if_pos h1, h2]

/-- Witness for the C10 passthrough at a concrete 200 response whose
content is the JSON number 7. -/
theorem llm_json_passthrough_witness :
    analyzeFlightTrends (some "k") (some ⟨200, "7", some (Json.num 7)⟩) [] =
      Json.num 7 :=
  llm_json_passthrough.1 "k" ⟨200, "7", some (Json.num 7)⟩ [] (Json.num 7)
    rfl rfl

/-! ## C2: non-200 responses fall back to the mock insights -/

/-- C2: with an API key set, any chat-completion response whose HTTP
status is not 200 makes `analyze_flight_trends` return exactly the mock
bundle for the same input, an object with the five `InsightBundle` keys;
no failure propagates to the caller. -/
theorem analyze_flight_trends_non200_fallback (key : String)
    (r : ChatResponse) (data : List ApiRecord) (h : r.status ≠ 200) :
    analyzeFlightTrends (some key) (some r) data =
      generateMockInsights data ∧
    bundleKeys (generateMockInsights data) = insightBundleKeys := by
  constructor
  · simp only [analyzeFlightTrends]
    rw [if_neg h]
  · unfold generateMockInsights
    split <;> rfl

/-- Witness for the C2 fallback at a concrete HTTP-500 response. -/
theorem analyze_flight_trends_non200_fallback_witness :
    analyzeFlightTrends (some "k") (some ⟨500, "", none⟩) [] =
      generateMockInsights [] ∧
    bundleKeys (generateMockInsights []) = insightBundleKeys :=
  analyze_flight_trends_non200_fallback "k" ⟨500, "", none⟩ []
    (by norm_num)

/-! ## C4: the data-quality score is bounded -/

/-- C4: for every record list — empty or not, with any combination of
absent required fields and null cells — the quality score lies in
[0, 100]. -/
theorem quality_score_bounded (data : List QRecord) :
    0 ≤ assessDataQuality data ∧ assessDataQuality data ≤ 100 := by
  unfold assessDataQuality
  split
  · omega
  · dsimp only
    generalize (missingFields data).length = m
    generalize nullCount data = n
    split <;> omega

/-! ## C8: the mock insights depend only on the input records -/

/-- C8: `_generate_mock_insights` is a pure function of its input — in
fact of the record count and price column alone: two record lists with
identical `price` fields produce identical bundles (the interpolated
count/mean/min/max values coincide and the static sentences are shared
constants).  In particular two calls on the identical list agree. -/
theorem mock_insights_price_determined (l1 l2 : List ApiRecord)
    (h : l1.map (fun r => r.price) = l2.map (fun r => r.price)) :
    generateMockInsights l1 = generateMockInsights l2 := by
  have hlen : l1.length = l2.length := by
    have h2 := congrArg List.length h
    simpa using h2
  have e : ∀ l : List ApiRecord,
      pricesOf l = (l.map fun r => r.price).filterMap id := by
    intro l
    simp [pricesOf, List.filterMap_map, Function.comp]
  have hp : pricesOf l1 = pricesOf l2 := by rw [e, e, h]
  unfold generateMockInsights
  rw [hlen, hp]

/-- Witness for C8: two concrete one-record lists agreeing on `price`
(but not on the other fields) yield the same mock bundle. -/
theorem mock_insights_price_determined_witness :
    generateMockInsights
        [{ price := some 100, other := [("origin", "SYD")] }] =
      generateMockInsights [{ price := some 100, other := [] }] :=
  mock_insights_price_determined _ _ rfl

/-! ## C5: the concrete three-record price-trend computation -/

/-- The three-record input of the spec's concrete `priceTrends` example
(fields the function does not read are filled arbitrarily). -/
def c5Data : List Flight :=
  [{ origin := "Sydney", destination := "Melbourne", price := 100,
     date := ⟨2025, 7, 1⟩, demand_score := 50, availability := 20,
     is_domestic := true, airline := "Qantas" },
   { origin := "Sydney", destination := "Brisbane", price := 300,
     date := ⟨2025, 7, 2⟩, demand_score := 60, availability := 30,
     is_domestic := true, airline := "Jetstar" },
   { origin := "Sydney", destination := "Tokyo", price := 1000,
     date := ⟨2025, 7, 3⟩, demand_score := 70, availability := 40,
     is_domestic := false, airline := "Qantas" }]

/-- C5: on the three-record input with domestic prices 100 and 300 and the
single international price 1000, `analyze_price_trends` reports
domestic_avg = 200 and international_avg = 1000. -/
theorem price_trends_concrete :
    (analyzePriceTrends c5Data).domestic_avg = 200 ∧
    (analyzePriceTrends c5Data).international_avg = 1000 := by
  constructor
  · rw [show (analyzePriceTrends c5Data).domestic_avg =
        round2 (listMeanQ [100, 300]) from rfl]
    rw [show listMeanQ [100, 300] = 200 from by norm_num [listMeanQ]]
    rw [round2, round_eq_of (100 * (200 : ℚ)) 20000 (by norm_num)
      (by norm_num)]
    norm_num
  · rw [show (analyzePriceTrends c5Data).international_avg =
        round2 (listMeanQ [1000]) from rfl]
    rw [show listMeanQ [1000] = 1000 from by norm_num [listMeanQ]]
    rw [round2, round_eq_of (100 * (1000 : ℚ)) 100000 (by norm_num)
      (by norm_num)]
    norm_num

/-! ## C6: partition averages lie between the partition extremes -/

theorem foldl_min_le_init (xs : List ℤ) (a : ℤ) : xs.foldl min a ≤ a := by
  induction xs generalizing a with
  | nil => simp
  | cons x xs ih => exact le_trans (ih (min a x)) (min_le_left a x)

theorem foldl_min_le_mem (xs : List ℤ) (a : ℤ) :
    ∀ x ∈ xs, xs.foldl min a ≤ x := by
  induction xs generalizing a with
  | nil => intro x hx; cases hx
  | cons y ys ih =>
    intro x hx
    rcases List.mem_cons.mp hx with rfl | hmem
    · exact le_trans (foldl_min_le_init ys (min a x)) (min_le_right a x)
    · exact ih (min a y) x hmem

theorem le_foldl_max_init (xs : List ℤ) (a : ℤ) : a ≤ xs.foldl max a := by
  induction xs generalizing a with
  | nil => simp
  | cons x xs ih => exact le_trans (le_max_left a x) (ih (max a x))

theorem le_foldl_max_mem (xs : List ℤ) (a : ℤ) :
    ∀ x ∈ xs, x ≤ xs.foldl max a := by
  induction xs generalizing a with
  | nil => intro x hx; cases hx
  | cons y ys ih =>
    intro x hx
    rcases List.mem_cons.mp hx with rfl | hmem
    · exact le_trans (le_max_right a x) (le_foldl_max_init ys (max a x))
    · exact ih (max a y) x hmem

theorem mul_length_le_sum (l : List ℤ) (m : ℤ) (h : ∀ x ∈ l, m ≤ x) :
    m * (l.length : ℤ) ≤ l.sum := by
  induction l with
  | nil => simp
  | cons x xs ih =>
    have hx := h x (List.mem_cons_self x xs)
    have hxs := ih fun y hy => h y (List.mem_cons_of_mem x hy)
    simp only [List.sum_cons, List.length_cons]
    push_cast
    ring_nf
    ring_nf at hxs
    linarith

theorem sum_le_mul_length (l : List ℤ) (M : ℤ) (h : ∀ x ∈ l, x ≤ M) :
    l.sum ≤ M * (l.length : ℤ) := by
  induction l with
  | nil => simp
  | cons x xs ih =>
    have hx := h x (List.mem_cons_self x xs)
    have hxs := ih fun y hy => h y (List.mem_cons_of_mem x hy)
    simp only [List.sum_cons, List.length_cons]
    push_cast
    ring_nf
    ring_nf at hxs
    linarith

theorem round2_mono (a b : ℚ) (h : a ≤ b) : round2 a ≤ round2 b := by
  unfold round2
  have hr : round (100 * a) ≤ round (100 * b) := by
    rw [round_eq, round_eq]
    exact Int.floor_le_floor (by linarith)
  gcongr

theorem round2_intCast (m : ℤ) : round2 ((m : ℤ) : ℚ) = m := by
  unfold round2
  rw [show (100 : ℚ) * (m : ℚ) = ((100 * m : ℤ) : ℚ) by push_cast; ring,
    round_intCast]
  push_cast
  exact mul_div_cancel_left₀ _ (by norm_num)

/-- Bounds for the rounded mean of a non-empty integer list in terms of
its minimum and maximum. -/
theorem round2_mean_bounds (l : List ℤ) (m M : ℤ)
    (hmin : listMin l = some m) (hmax : listMax l = some M) :
    (m : ℚ) ≤ round2 (if l.length ≠ 0 then listMeanQ l else 0) ∧
    round2 (if l.length ≠ 0 then listMeanQ l else 0) ≤ (M : ℚ) := by
  cases l with
  | nil => cases hmin
  | cons x xs =>
    have hmv : m = xs.foldl min x := (Option.some.inj hmin).symm
    have hMv : M = xs.foldl max x := (Option.some.inj hmax).symm
    have hm : ∀ y ∈ x :: xs, m ≤ y := by
      intro y hy
      rcases List.mem_cons.mp hy with rfl | hmem
      · exact hmv ▸ foldl_min_le_init xs y
      · exact hmv ▸ foldl_min_le_mem xs x y hmem
    have hM : ∀ y ∈ x :: xs, y ≤ M := by
      intro y hy
      rcases List.mem_cons.mp hy with rfl | hmem
      · exact hMv ▸ le_foldl_max_init xs y
      · exact hMv ▸ le_foldl_max_mem xs x y hmem
    rw [if_pos (by simp)]
    have hlen : (0 : ℚ) < ((x :: xs).length : ℚ) := by
      simp only [List.length_cons]
      push_cast
      positivity
    have hmean1 : (m : ℚ) ≤ listMeanQ (x :: xs) := by
      rw [listMeanQ, le_div_iff₀ hlen]
      exact_mod_cast mul_length_le_sum (x :: xs) m hm
    have hmean2 : listMeanQ (x :: xs) ≤ (M : ℚ) := by
      rw [listMeanQ, div_le_iff₀ hlen]
      exact_mod_cast sum_le_mul_length (x :: xs) M hM
    constructor
    · calc (m : ℚ) = round2 ((m : ℤ) : ℚ) := (round2_intCast m).symm
        _ ≤ round2 (listMeanQ (x :: xs)) :=
          round2_mono _ _ hmean1
    · calc round2 (listMeanQ (x :: xs)) ≤ round2 ((M : ℤ) : ℚ) :=
          round2_mono _ _ hmean2
        _ = (M : ℚ) := by rw [round2_intCast]

/-- C6: whenever the domestic (resp. international) price partition is
non-empty, the rounded average reported by `analyze_price_trends` lies
between that partition's minimum and maximum price. -/
theorem price_trends_avg_in_range (data : List Flight) (m M : ℤ) :
    (listMin (domesticPrices data) = some m →
      listMax (domesticPrices data) = some M →
      ((m : ℚ) ≤ (analyzePriceTrends data).domestic_avg ∧
        (analyzePriceTrends data).domestic_avg ≤ (M : ℚ))) ∧
    (listMin (internationalPrices data) = some m →
      listMax (internationalPrices data) = some M →
      ((m : ℚ) ≤ (analyzePriceTrends data).international_avg ∧
        (analyzePriceTrends data).international_avg ≤ (M : ℚ))) := by
  constructor
  · intro h1 h2
    exact round2_mean_bounds (domesticPrices data) m M h1 h2
  · intro h1 h2
    exact round2_mean_bounds (internationalPrices data) m M h1 h2

/-- The one-domestic-one-international record list of the C6 witness. -/
def c6Data : List Flight :=
  [{ origin := "Sydney", destination := "Melbourne", price := 100,
     date := ⟨2025, 7, 1⟩, demand_score := 50, availability := 20,
     is_domestic := true, airline := "Qantas" },
   { origin := "Sydney", destination := "Tokyo", price := 250,
     date := ⟨2025, 7, 2⟩, demand_score := 60, availability := 30,
     is_domestic := false, airline := "Qantas" }]

/-- Witness for C6 on the domestic partition of `c6Data`. -/
theorem price_trends_avg_in_range_witness :
    ((100 : ℤ) : ℚ) ≤ (analyzePriceTrends c6Data).domestic_avg ∧
    (analyzePriceTrends c6Data).domestic_avg ≤ ((100 : ℤ) : ℚ) :=
  (price_trends_avg_in_range c6Data 100 100).1 rfl rfl

/-! ## C7: shape of the popular-routes ranking -/

theorem insertStat_perm (x : RouteStat) (l : List RouteStat) :
    (insertStat x l).Perm (x :: l) := by
  induction l with
  | nil => exact List.Perm.refl _
  | cons y ys ih =>
    simp only [insertStat]
    split
    · exact List.Perm.refl _
    · exact (ih.cons y).trans (List.Perm.swap x y ys)

theorem sortDesc_perm (l : List RouteStat) : (sortDesc l).Perm l := by
  induction l with
  | nil => exact List.Perm.refl _
  | cons x xs ih =>
    exact (insertStat_perm x (sortDesc xs)).trans (ih.cons x)

theorem insertStat_pairwise (x : RouteStat) (l : List RouteStat)
    (h : l.Pairwise fun a b => b.avg_demand ≤ a.avg_demand) :
    (insertStat x l).Pairwise fun a b => b.avg_demand ≤ a.avg_demand := by
  induction l with
  | nil => simp [insertStat]
  | cons y ys ih =>
    rcases List.pairwise_cons.mp h with ⟨hy, hys⟩
    simp only [insertStat]
    split
    case isTrue hle =>
      refine List.pairwise_cons.mpr ⟨?_, h⟩
      intro z hz
      rcases List.mem_cons.mp hz with rfl | hmem
      · exact hle
      · exact le_trans (hy z hmem) hle
    case isFalse hlt =>
      push_neg at hlt
      refine List.pairwise_cons.mpr ⟨?_, ih hys⟩
      intro z hz
      rcases List.mem_cons.mp ((insertStat_perm x ys).mem_iff.mp hz)
        with rfl | hmem
      · exact le_of_lt hlt
      · exact hy z hmem

theorem sortDesc_pairwise (l : List RouteStat) :
    (sortDesc l).Pairwise fun a b => b.avg_demand ≤ a.avg_demand := by
  induction l with
  | nil => simp [sortDesc]
  | cons x xs ih => exact insertStat_pairwise x (sortDesc xs) ih

theorem insertStat_filter (x : RouteStat) (l : List RouteStat) (q : ℚ) :
    (insertStat x l).filter (fun s => decide (s.avg_demand = q)) =
      (x :: l).filter (fun s => decide (s.avg_demand = q)) := by
  induction l with
  | nil => rfl
  | cons y ys ih =>
    simp only [insertStat]
    split
    case isTrue hle => rfl
    case isFalse hlt =>
      push_neg at hlt
      by_cases hy : y.avg_demand = q
      · have hx : x.avg_demand ≠ q := fun hx =>
          absurd (hx.trans hy.symm) (ne_of_lt hlt)
        simp [List.filter_cons, hy, hx, ih]
      · simp [List.filter_cons, hy, ih]

theorem sortDesc_filter (l : List RouteStat) (q : ℚ) :
    (sortDesc l).filter (fun s => decide (s.avg_demand = q)) =
      l.filter (fun s => decide (s.avg_demand = q)) := by
  induction l with
  | nil => rfl
  | cons x xs ih =>
    have h1 : sortDesc (x :: xs) = insertStat x (sortDesc xs) := rfl
    rw [h1, insertStat_filter]
    simp only [List.filter_cons]
    rw [ih]

theorem map_fst_addDemand (acc : List (String × List ℤ)) (f : Flight) :
    (routeKey f ∈ acc.map Prod.fst →
      (addDemand acc f).map Prod.fst = acc.map Prod.fst) ∧
    (routeKey f ∉ acc.map Prod.fst →
      (addDemand acc f).map Prod.fst =
        acc.map Prod.fst ++ [routeKey f]) := by
  constructor
  · intro hk
    simp only [addDemand]
    rw [if_pos hk, List.map_map]
    apply List.map_congr_left
    intro p hp
    simp only [Function.comp]
    split <;> rfl
  · intro hk
    simp only [addDemand]
    rw [if_neg hk, List.map_append]
    rfl

theorem foldl_addDemand_length (l : List Flight) :
    ∀ acc : List (String × List ℤ), (acc.map Prod.fst).Nodup →
      (l.foldl addDemand acc).length =
        ((acc.map Prod.fst).toFinset ∪ (l.map routeKey).toFinset).card := by
  induction l with
  | nil =>
    intro acc h
    simp only [List.foldl_nil, List.map_nil, List.toFinset_nil,
      Finset.union_empty]
    rw [List.toFinset_card_of_nodup h, List.length_map]
  | cons f l ih =>
    intro acc h
    rw [List.foldl_cons]
    by_cases hk : routeKey f ∈ acc.map Prod.fst
    · have hkeys := (map_fst_addDemand acc f).1 hk
      rw [ih (addDemand acc f) (hkeys ▸ h), hkeys]
      congr 1
      have hk' : routeKey f ∈ (acc.map Prod.fst).toFinset :=
        List.mem_toFinset.mpr hk
      ext y
      simp only [List.map_cons, List.toFinset_cons, Finset.mem_union,
        Finset.mem_insert]
      have hk2 : y = routeKey f → y ∈ (acc.map Prod.fst).toFinset :=
        fun hy => hy ▸ hk'
      tauto
    · have hkeys := (map_fst_addDemand acc f).2 hk
      have hnd : ((addDemand acc f).map Prod.fst).Nodup := by
        rw [hkeys]
        simp [List.nodup_append, h, hk]
      rw [ih (addDemand acc f) hnd, hkeys]
      congr 1
      ext y
      simp only [List.toFinset_append, List.toFinset_cons,
        List.toFinset_nil, List.map_cons, Finset.mem_union,
        Finset.mem_insert, Finset.not_mem_empty, or_false]
      tauto

/-- The `route_demand` dictionary has one entry per distinct route key. -/
theorem routeDemand_length (data : List Flight) :
    (routeDemand data).length = ((data.map routeKey).toFinset).card := by
  have h := foldl_addDemand_length data [] (by simp)
  simpa [routeDemand] using h

/-- C7: `analyze_popular_routes` returns at most 10 entries, at most one
per distinct directed route key, ordered by non-increasing `avg_demand`;
and the sort is stable — for every demand value, the entries carrying it
appear in the same order as in the unsorted group list. -/
theorem popular_routes_spec (data : List Flight) :
    (analyzePopularRoutes data).length ≤ 10 ∧
    (analyzePopularRoutes data).length ≤
      ((data.map routeKey).toFinset).card ∧
    (analyzePopularRoutes data).Pairwise
      (fun a b => b.avg_demand ≤ a.avg_demand) ∧
    ∀ q : ℚ,
      (sortDesc (popularStats data)).filter
          (fun s => decide (s.avg_demand = q)) =
        (popularStats data).filter (fun s => decide (s.avg_demand = q)) := by
  refine ⟨?_, ?_, ?_, fun q => sortDesc_filter (popularStats data) q⟩
  · exact (sortDesc (popularStats data)).length_take_le 10
  · calc (analyzePopularRoutes data).length
        ≤ (sortDesc (popularStats data)).length := by
          rw [analyzePopularRoutes, List.length_take]
          exact min_le_right _ _
      _ = (popularStats data).length :=
          (sortDesc_perm (popularStats data)).length_eq
      _ = (routeDemand data).length := by
          rw [popularStats, List.length_map]
      _ = ((data.map routeKey).toFinset).card := routeDemand_length data
  · exact (sortDesc_pairwise (popularStats data)).sublist
      (List.take_sublist 10 _)
